import Mathlib

/-!
Verification development for the kloak input daemon
(sources: src/src/kloak.c, src/unnamed/part_002 and headers).

Modeling conventions:
- C int64_t / int32_t values are modeled as Int; truncated division and
  modulus (Int.tdiv / Int.tmod) model the C / and % operators on signed
  integers.  uint32_t values are modeled as Nat, with wraparound written
  explicitly where it matters.
- C double values are modeled as exact rational numbers (Rat).  Every
  double computation appearing in the concrete runs below (integer-valued
  additions, subtractions, comparisons, and divisions whose results are
  integers) is exact in IEEE-754 binary64, so on those runs the rational
  model and the compiled code agree bit-for-bit.  The rational operations
  are spelled out through mkRat so that they evaluate by kernel reduction.
- The stream of bytes delivered by read_random from /dev/urandom is passed
  in as an explicit list of signed 64-bit values (the union rand_int64 in
  the source reinterprets each 8-byte read as an int64_t).
- Loops without a structural termination measure take an explicit fuel
  argument; running out of fuel returns none (the C code would still be
  looping).  Calls that make the process exit(1) are modeled as none.
- Wayland/libinput handles, shared memory, and drawing are external I/O
  and are modeled only through their observable effects (emission lists,
  retained state fields).
-/

namespace Kloak

/-! ### Exact rational arithmetic used to model C doubles -/

/-- Rational made from an integer. -/
def rof (n : Int) : Rat := mkRat n 1

/-- Exact rational addition. -/
def radd (a b : Rat) : Rat := mkRat (a.num * b.den + b.num * a.den) (a.den * b.den)

/-- Exact rational subtraction. -/
def rsub (a b : Rat) : Rat := mkRat (a.num * b.den - b.num * a.den) (a.den * b.den)

/-- Exact rational multiplication. -/
def rmul (a b : Rat) : Rat := mkRat (a.num * b.num) (a.den * b.den)

/-- Exact rational division (the divisor is nonzero at every use site). -/
def rdiv (a b : Rat) : Rat :=
  if 0 ≤ b.num then mkRat (a.num * (b.den : Int)) ((a.den : Int) * b.num).toNat
  else mkRat (-(a.num * (b.den : Int))) ((a.den : Int) * (-b.num)).toNat

/-- Exact rational negation. -/
def rneg (a : Rat) : Rat := mkRat (-a.num) a.den

/-- Strict order on rationals, as a Bool. -/
def rlt (a b : Rat) : Bool := Rat.blt a b

/-- The C cast of a double to a signed integer type: truncation toward zero. -/
def qtrunc (q : Rat) : Int := q.num.tdiv (q.den : Int)

/-! ### random_between (part_002 lines 124-145) -/

/-- INT64_MAX from stdint.h. -/
def INT64_MAX : Int := 2 ^ 63 - 1

/-- Embedding of random_between (part_002 lines 130-145).  The do/while loop
keeps drawing 64-bit values while randval.val >= (INT64_MAX - INT64_MAX - maxval),
exactly as written in the source; the first draw below that threshold is
reduced with the C % operator (truncated modulus) and added to lower.
If the interval is not valid the function returns upper without drawing.
none means no draw in the supplied list was accepted (the process would
still be blocking on /dev/urandom). -/
def random_between (lower upper : Int) (draws : List Int) : Option Int :=
  if lower ≥ upper then
    some upper
  else
    let maxval := upper - lower + 1
    match draws.find? (fun v => decide (v < INT64_MAX - INT64_MAX - maxval)) with
    | none => none
    | some v => some (lower + Int.tmod v maxval)

/-! ### Output geometry and coordinate translation (part_002 lines 254-308) -/

/-- struct output_geometry from kloak.h. -/
structure output_geometry where
  x : Int
  y : Int
  width : Int
  height : Int
  init_done : Bool
deriving DecidableEq, Repr

/-- A zero-filled output_geometry, used as an out-of-range array default. -/
def gdefault : output_geometry :=
  { x := 0, y := 0, width := 0, height := 0, init_done := false }

/-- One slot of the parallel arrays state.output_geometry[i] / state.layer[i]
(MAX_DRAWABLE_LAYERS slots; only slots actually used are listed).  geom = none
models a NULL output_geometry pointer, layer models whether state.layer[i]
is non-NULL. -/
structure Slot where
  geom : Option output_geometry
  layer : Bool
deriving DecidableEq, Repr

/-- struct screen_local_coord from kloak.h. -/
structure screen_local_coord where
  x : Int
  y : Int
  output_idx : Nat
  valid : Bool
deriving DecidableEq, Repr

/-- struct coord from kloak.h. -/
structure coord where
  x : Int
  y : Int
deriving DecidableEq, Repr

/-- Iteration of abs_coord_to_screen_local_coord over the slot array,
carrying the running index. -/
def find_output_aux (x y : Int) (i : Nat) : List Slot → screen_local_coord
  | [] => { x := 0, y := 0, output_idx := 0, valid := false }
  | s :: rest =>
    match s.geom with
    | none => find_output_aux x y (i + 1) rest
    | some g =>
      if g.init_done = true ∧ g.x ≤ x ∧ g.y ≤ y ∧ x < g.x + g.width ∧ y < g.y + g.height then
        { x := x - g.x, y := y - g.y, output_idx := i, valid := true }
      else
        find_output_aux x y (i + 1) rest

/-- Embedding of abs_coord_to_screen_local_coord (part_002 lines 254-291):
first initialized output containing the point wins; an all-zero invalid
record is returned when no output covers the point. -/
def abs_coord_to_screen_local_coord (slots : List Slot) (x y : Int) : screen_local_coord :=
  find_output_aux x y 0 slots

/-- Embedding of screen_local_coord_to_abs_coord (part_002 lines 293-308).
The source dereferences output_geometry[output_idx] only after checking
state.layer[output_idx]; a slot whose layer is present always has its
geometry allocated in the modeled states. -/
def screen_local_coord_to_abs_coord (slots : List Slot) (x y : Int) (output_idx : Nat) : coord :=
  match slots.getD output_idx { geom := none, layer := false } with
  | s =>
    if s.layer = false then { x := -1, y := -1 }
    else
      match s.geom with
      | none => { x := -1, y := -1 }
      | some g =>
        if x ≥ g.width ∨ y ≥ g.height then { x := -1, y := -1 }
        else { x := g.x + x, y := g.y + y }

/-! ### traverse_line (part_002 lines 310-360) -/

/-- Embedding of traverse_line.  The double arithmetic of the source
(slope, steep, and the casts back to int32_t) is modeled with exact
rationals; the casts truncate toward zero as in C. -/
def traverse_line (start stop : coord) (pos : Int) : coord :=
  if pos = 0 then start
  else
    let num := rsub (rof stop.y) (rof start.y)
    let denom := rsub (rof start.x) (rof stop.x)
    if denom = rof 0 then
      { x := start.x, y := if start.y < stop.y then start.y + pos else start.y - pos }
    else
      let slope := rdiv num denom
      let steep := if rlt slope (rof 0) then rneg slope else slope
      if rlt steep (rof 1) then
        { x := if start.x < stop.x then start.x + pos else start.x - pos,
          y := if start.y < stop.y then start.y + qtrunc (rmul (rof pos) steep)
               else start.y - qtrunc (rmul (rof pos) steep) }
      else
        { x := if start.x < stop.x then start.x + qtrunc (rmul (rof pos) (rdiv (rof 1) steep))
               else start.x - qtrunc (rmul (rof pos) (rdiv (rof 1) steep)),
          y := if start.y < stop.y then start.y + pos else start.y - pos }

/-! ### update_virtual_cursor (part_002 lines 862-990) -/

/-- The four double-valued cursor globals of the source. -/
structure CursorState where
  cursor_x : Rat
  cursor_y : Rat
  prev_cursor_x : Rat
  prev_cursor_y : Rat
deriving DecidableEq, Repr

/-- Whether state.layer[i] is non-NULL. -/
def layer_present (slots : List Slot) (i : Nat) : Bool :=
  (slots.getD i { geom := none, layer := false }).layer

/-- The recovery loop at the top of update_virtual_cursor (lines 867-882):
for every slot with a layer, both cursor positions are moved to local (0,0)
of that output; later slots overwrite earlier ones, as in the source. -/
def sanity_reset (slots : List Slot) (cs : CursorState) : CursorState :=
  (List.range slots.length).foldl
    (fun c i =>
      if layer_present slots i then
        let sane := screen_local_coord_to_abs_coord slots 0 0 i
        { cursor_x := rof sane.x, cursor_y := rof sane.y,
          prev_cursor_x := rof sane.x, prev_cursor_y := rof sane.y }
      else c)
    cs

/-- The pixel-walking loop of update_virtual_cursor (lines 913-984).
Arguments mirror the mutable locals: start, end, prev_trav, the two sticky
hit flags, and the loop counter i.  On the recovery paths the source sets
i = -1 and continues, so the recursive calls restart at i = 0 with
prev_trav and the hit flags unchanged.  Fuel bounds the iteration count;
none models a run that has not terminated within the given fuel. -/
def uvc_walk (slots : List Slot) (start stop prev_trav : coord)
    (end_x_hit end_y_hit : Bool) (i : Int) : Nat → Option coord
  | 0 => none
  | fuel + 1 =>
    let trav := traverse_line start stop i
    let exh := end_x_hit || decide (trav.x = stop.x)
    let eyh := end_y_hit || decide (trav.y = stop.y)
    if (abs_coord_to_screen_local_coord slots trav.x trav.y).valid = true then
      if exh && eyh then some stop
      else uvc_walk slots start stop trav exh eyh (i + 1) fuel
    else if prev_trav.x < trav.x ∧
        (abs_coord_to_screen_local_coord slots (trav.x - 1) trav.y).valid = true then
      uvc_walk slots { x := trav.x - 1, y := trav.y } { x := trav.x - 1, y := stop.y }
        prev_trav exh eyh 0 fuel
    else if prev_trav.x > trav.x ∧
        (abs_coord_to_screen_local_coord slots (trav.x + 1) trav.y).valid = true then
      uvc_walk slots { x := trav.x + 1, y := trav.y } { x := trav.x + 1, y := stop.y }
        prev_trav exh eyh 0 fuel
    else if prev_trav.y < trav.y ∧
        (abs_coord_to_screen_local_coord slots trav.x (trav.y - 1)).valid = true then
      uvc_walk slots { x := trav.x, y := trav.y - 1 } { x := stop.x, y := trav.y - 1 }
        prev_trav exh eyh 0 fuel
    else if prev_trav.y > trav.y ∧
        (abs_coord_to_screen_local_coord slots trav.x (trav.y + 1)).valid = true then
      uvc_walk slots { x := trav.x, y := trav.y + 1 } { x := stop.x, y := trav.y + 1 }
        prev_trav exh eyh 0 fuel
    else if exh && eyh then some stop
    else uvc_walk slots start stop trav exh eyh (i + 1) fuel

/-- Embedding of update_virtual_cursor (part_002 lines 862-990).  The final
conditional assignments keep the fractional double value when its truncation
already equals the walked end coordinate, exactly as the source does.  The
frame_pending flags set at the very end touch only drawing state and are not
modeled. -/
def update_virtual_cursor (slots : List Slot) (fuel : Nat) (cs0 : CursorState) :
    Option CursorState :=
  let prev_cd := abs_coord_to_screen_local_coord slots
    (qtrunc cs0.prev_cursor_x) (qtrunc cs0.prev_cursor_y)
  let cs := if prev_cd.valid = false ∨ layer_present slots prev_cd.output_idx = false
            then sanity_reset slots cs0 else cs0
  let start : coord := { x := qtrunc cs.prev_cursor_x, y := qtrunc cs.prev_cursor_y }
  let stop : coord := { x := qtrunc cs.cursor_x, y := qtrunc cs.cursor_y }
  match uvc_walk slots start stop start false false 0 fuel with
  | none => none
  | some e =>
    some { cs with
      cursor_x := if qtrunc cs.cursor_x ≠ e.x then rof e.x else cs.cursor_x,
      cursor_y := if qtrunc cs.cursor_y ≠ e.y then rof e.y else cs.cursor_y }

/-! ### recalc_global_space (part_002 lines 147-252) -/

/-- UINT32_MAX from stdint.h, the initial value of the upper-left corner
accumulators. -/
def UINT32_MAX : Int := 2 ^ 32 - 1

/-- The screen_list built by recalc_global_space: every non-NULL,
initialized output geometry, in slot order. -/
def init_screens (slots : List Slot) : List output_geometry :=
  slots.filterMap fun s =>
    match s.geom with
    | some g => if g.init_done = true then some g else none
    | none => none

/-- The touching test of recalc_global_space (lines 220-223): pure
coordinate-line comparisons, with no check that the screens overlap in the
other dimension. -/
def touches (a b : output_geometry) : Bool :=
  decide (a.x = b.x + b.width) || decide (a.x + a.width = b.x) ||
  decide (a.y = b.y + b.height) || decide (a.y + a.height = b.y)

/-- The inner j loop of the gap check (lines 208-228): scan all screens,
appending (by index) every screen not already collected that touches the
fixed connected screen. -/
def conn_inner (screens : List output_geometry) (conn_head : output_geometry)
    (conn : List Nat) : List Nat :=
  (List.range screens.length).foldl
    (fun c j =>
      if c.contains j then c
      else if touches conn_head (screens.getD j gdefault) then c ++ [j] else c)
    conn

/-- The outer i loop of the gap check (line 207): i walks the growing
connected list.  The list gains each index at most once, so
screens.length + 1 fuel always suffices. -/
def conn_outer (screens : List output_geometry) (conn : List Nat) (i : Nat) :
    Nat → List Nat
  | 0 => conn
  | fuel + 1 =>
    if i < conn.length then
      conn_outer screens
        (conn_inner screens (screens.getD (conn.getD i 0) gdefault) conn) (i + 1) fuel
    else conn

/-- Embedding of recalc_global_space (part_002 lines 147-252).  Returns the
resulting (global_space_width, global_space_height) pair, with none modeling
the exit(1) on the fatal-gap diagnostic; the silent early returns and the
allow_gaps return leave the previous extent unchanged. -/
def recalc_global_space (slots : List Slot) (allow_gaps : Bool)
    (old_w old_h : Int) : Option (Int × Int) :=
  let screens := init_screens slots
  let ul_x := screens.foldl (fun a g => if g.x < a then g.x else a) UINT32_MAX
  let ul_y := screens.foldl (fun a g => if g.y < a then g.y else a) UINT32_MAX
  let br_x := screens.foldl (fun a g => if g.x + g.width > a then g.x + g.width else a) 0
  let br_y := screens.foldl (fun a g => if g.y + g.height > a then g.y + g.height else a) 0
  if ul_x > br_x then some (old_w, old_h)
  else if ul_y > br_y then some (old_w, old_h)
  else
    let conn := conn_outer screens [0] 0 (screens.length + 1)
    if conn.length ≠ screens.length then
      if allow_gaps then some (old_w, old_h) else none
    else some (br_x, br_y)

/-- Formalization of the edge adjacency the specification describes: two
output rectangles are edge-adjacent when they share a boundary segment of
positive length (abutting on a vertical or horizontal edge with overlapping
extents).  This is the spec-side notion against which the touching test of
the code is compared. -/
def spec_edge_adjacent (a b : output_geometry) : Bool :=
  ((decide (a.x + a.width = b.x) || decide (b.x + b.width = a.x)) &&
    decide (max a.y b.y < min (a.y + a.height) (b.y + b.height))) ||
  ((decide (a.y + a.height = b.y) || decide (b.y + b.height = a.y)) &&
    decide (max a.x b.x < min (a.x + a.width) (b.x + b.width)))

/-- Reachability closure under spec_edge_adjacent, starting from screen 0. -/
def spec_reach (screens : List output_geometry) : List Nat → Nat → List Nat
  | acc, 0 => acc
  | acc, fuel + 1 =>
    let next := (List.range screens.length).filter (fun j =>
      !acc.contains j &&
        acc.any (fun k => spec_edge_adjacent (screens.getD k gdefault) (screens.getD j gdefault)))
    if next.isEmpty then acc else spec_reach screens (acc ++ next) fuel

/-- Spec-side predicate: the union of the given outputs is edge-connected
(every screen reachable from the first through positive-length shared
edges). -/
def spec_edge_connected (screens : List output_geometry) : Bool :=
  decide (screens.length ≤ 1) ||
    decide ((spec_reach screens [0] screens.length).length = screens.length)

/-! ### kb_handle_keymap (part_002 lines 537-578) -/

/-- The keymap-related fields of struct disp_state: the retained text bytes
of the previously accepted keymap (old_kb_map_shm), the compiled xkb keymap,
and the virt_kb_keymap_set flag.  Keymap compilation
(xkb_keymap_new_from_string plus xkb_state_new) is an external library and
is abstracted by the compile parameter below; the compiled handle type is
left abstract. -/
structure kb_state (α : Type) where
  old_kb_map : Option (List Char)
  xkb_keymap : Option α
  virt_kb_keymap_set : Bool
deriving DecidableEq, Repr

/-- The tail of kb_handle_keymap once the descriptor is forwarded: the
keymap is pushed to the virtual keyboard (the Bool component), recompiled,
and its bytes retained.  A compile failure makes the process exit(1),
modeled as a none state (the forward has already happened by then). -/
def kb_forward_and_compile {α : Type} (compile : List Char → Option α)
    (new_map : List Char) : Option (kb_state α) × Bool :=
  match compile new_map with
  | none => (none, true)
  | some k =>
    (some { old_kb_map := some new_map, xkb_keymap := some k,
            virt_kb_keymap_set := true }, true)

/-- Embedding of kb_handle_keymap (part_002 lines 537-578).  new_map is the
text of the arriving keymap descriptor (the mmap of its fd); the strcmp in
the source compares the NUL-terminated keymap texts byte for byte, modeled
as equality of the byte lists.  The Bool result records whether the
descriptor was forwarded to the virtual keyboard. -/
def kb_handle_keymap {α : Type} (compile : List Char → Option α)
    (s : kb_state α) (new_map : List Char) : Option (kb_state α) × Bool :=
  match s.old_kb_map with
  | some old =>
    if old = new_map then (some s, false)
    else kb_forward_and_compile compile new_map
  | none => kb_forward_and_compile compile new_map

/-! ### The event scheduler (part_002 lines 1123-1185) -/

/-- The three libinput scroll event types forwarded by kloak. -/
inductive scroll_source where
  | wheel
  | finger
  | continuous
deriving DecidableEq, Repr

/-- A captured libinput event together with the payload kloak reads from it.
For absolute motion the payload is the position already transformed into
global-space units; for relative motion it is the dx/dy pair. -/
inductive LiEvent where
  | pointer_motion_absolute (abs_x abs_y : Rat)
  | pointer_motion (dx dy : Rat)
  | pointer_button (code : Int) (pressed : Bool)
  | pointer_scroll (src : scroll_source) (vert horiz : Option Rat)
  | keyboard_key (code : Int) (pressed : Bool)
  | device_added (can_tap : Bool)
deriving DecidableEq, Repr

/-- struct li_packet from kloak.h: the queued event and its release time. -/
structure li_packet where
  li_event : LiEvent
  sched_time : Int
deriving DecidableEq, Repr

/-- The mutable globals touched by the scheduler: the cursor doubles, the
output slots, the global-space extent (uint32_t), prev_release_time, and
the TAILQ of pending packets (head of the list = head of the queue). -/
structure KloakState where
  cursor : CursorState
  slots : List Slot
  global_space_width : Nat
  global_space_height : Nat
  prev_release_time : Int
  queue : List li_packet
deriving DecidableEq, Repr

/-- uint32_t subtraction of 1, as in state.global_space_width - 1 (wraps when
the width is 0). -/
def u32_sub_one (w : Nat) : Nat := (w + 2 ^ 32 - 1) % 2 ^ 32

/-- Whether schedule_libinput_event takes one of the two immediate motion
branches for this event. -/
def is_motion_event : LiEvent → Bool
  | .pointer_motion_absolute _ _ => true
  | .pointer_motion _ _ => true
  | _ => false

/-- The CursorState that the motion branches of schedule_libinput_event hand
to update_virtual_cursor: previous position saved, new position set (with
the relative branch clamping into [0, extent-1] on each axis).  For
non-motion events the cursor is left untouched. -/
def motion_cursor_target (s : KloakState) : LiEvent → CursorState
  | .pointer_motion_absolute ax ay =>
      { cursor_x := ax, cursor_y := ay,
        prev_cursor_x := s.cursor.cursor_x, prev_cursor_y := s.cursor.cursor_y }
  | .pointer_motion dx dy =>
      let cx0 := radd s.cursor.cursor_x dx
      let cy0 := radd s.cursor.cursor_y dy
      let cx1 := if rlt cx0 (rof 0) then rof 0 else cx0
      let cy1 := if rlt cy0 (rof 0) then rof 0 else cy0
      let bx := rof (u32_sub_one s.global_space_width)
      let bndy := rof (u32_sub_one s.global_space_height)
      let cx2 := if rlt bx cx1 then bx else cx1
      let cy2 := if rlt bndy cy1 then bndy else cy1
      { cursor_x := cx2, cursor_y := cy2,
        prev_cursor_x := s.cursor.cursor_x, prev_cursor_y := s.cursor.cursor_y }
  | _ => s.cursor

/-- Embedding of schedule_libinput_event (part_002 lines 1123-1173).
max_delay is the global initialized from DEFAULT_MAX_DELAY_MS (the constant
lives in the current kloak.h, which is not among the provided sources, so it
stays a parameter).  now is the value returned by current_time_ms, and draws
feeds random_between.  Motion events update the cursor immediately and
return; every other event is appended to the tail of the queue with
sched_time = now + random_delay, and prev_release_time is set to that
sched_time. -/
def schedule_libinput_event (max_delay : Int) (s : KloakState) (ev : LiEvent)
    (now : Int) (fuel : Nat) (draws : List Int) : Option KloakState :=
  if is_motion_event ev = true then
    (update_virtual_cursor s.slots fuel (motion_cursor_target s ev)).map
      (fun cs2 => { s with cursor := cs2 })
  else
    let lower_bound := min (max (s.prev_release_time - now) 0) max_delay
    (random_between lower_bound max_delay draws).map
      (fun d =>
        { s with
          queue := s.queue ++ [{ li_event := ev, sched_time := now + d }],
          prev_release_time := now + d })

/-- Embedding of release_scheduled_libinput_events (part_002 lines 1175-1185):
pops and handles packets from the head of the queue while the head is due.
Returns the list of packets handed to handle_libinput_event, in order, and
the remaining queue. -/
def release_scheduled_libinput_events (now : Int) :
    List li_packet → List li_packet × List li_packet
  | [] => ([], [])
  | p :: rest =>
    if now ≥ p.sched_time then
      let r := release_scheduled_libinput_events now rest
      (p :: r.1, r.2)
    else
      ([], p :: rest)

/-! ### handle_libinput_event (part_002 lines 992-1121) -/

/-- The two wl_pointer scroll axes. -/
inductive wl_axis where
  | vertical
  | horizontal
deriving DecidableEq, Repr

/-- One protocol request emitted to the virtual pointer or virtual keyboard.
The modifiers request abstracts the four xkb masks pushed before each key. -/
inductive wl_emission where
  | button (time : Int) (code : Int) (pressed : Bool)
  | axis_stop (time : Int) (axis : wl_axis)
  | axis (time : Int) (axis : wl_axis) (value : Rat)
  | axis_source (src : scroll_source)
  | modifiers
  | key (time : Int) (code : Int) (pressed : Bool)
  | frame
deriving DecidableEq, Repr

/-- One axis block of the scroll branch of handle_libinput_event
(lines 1033-1059 for vertical, 1061-1086 for horizontal): when the axis is
present, a zero value emits axis_stop and a nonzero value emits axis with
the value, followed by the axis_source matching the event type. -/
def scroll_axis_emissions (ts : Int) (src : scroll_source) (ax : wl_axis)
    (v : Option Rat) : List wl_emission :=
  match v with
  | none => []
  | some value =>
    [if value = rof 0 then wl_emission.axis_stop ts ax
     else wl_emission.axis ts ax value,
     wl_emission.axis_source src]

/-- Embedding of handle_libinput_event (part_002 lines 992-1121) as the list
of protocol requests it emits, in order.  Pointer events are closed with a
frame; key events are preceded by a modifiers push and only emitted once a
keymap is set; device-added only tweaks tap-to-click configuration and emits
nothing; motion event types match no branch and emit nothing. -/
def handle_libinput_event (ev : LiEvent) (ts : Int) (keymap_set : Bool) :
    List wl_emission :=
  match ev with
  | .device_added _ => []
  | .pointer_button code pressed =>
      [wl_emission.button ts code pressed, wl_emission.frame]
  | .pointer_scroll src vert horiz =>
      scroll_axis_emissions ts src wl_axis.vertical vert ++
      scroll_axis_emissions ts src wl_axis.horizontal horiz ++ [wl_emission.frame]
  | .keyboard_key code pressed =>
      if keymap_set then [wl_emission.modifiers, wl_emission.key ts code pressed]
      else []
  | .pointer_motion _ _ => []
  | .pointer_motion_absolute _ _ => []

/-! ### seat_handle_capabilities (part_002 lines 523-535) -/

/-- WL_SEAT_CAPABILITY_KEYBOARD from the wl_seat protocol (bit 1). -/
def WL_SEAT_CAPABILITY_KEYBOARD : Nat := 2

/-- Embedding of seat_handle_capabilities (part_002 lines 523-535): true
when the keyboard listener is registered, false when the fatal
no-keyboard-capability branch would run.  The source tests
(capabilities | WL_SEAT_CAPABILITY_KEYBOARD), a bitwise OR. -/
def seat_handle_capabilities (capabilities : Nat) : Bool :=
  if capabilities ||| WL_SEAT_CAPABILITY_KEYBOARD ≠ 0 then true else false

/-! ### Concrete states used by the claim theorems -/

/-- A state with no outputs, cursor at the origin, empty queue,
prev_release_time 0. -/
def state0 : KloakState :=
  { cursor := { cursor_x := rof 0, cursor_y := rof 0,
                prev_cursor_x := rof 0, prev_cursor_y := rof 0 },
    slots := [], global_space_width := 0, global_space_height := 0,
    prev_release_time := 0, queue := [] }

/-- A packet due at time 10. -/
def packet_a : li_packet := { li_event := .pointer_button 272 true, sched_time := 10 }

/-- A packet due at time 5. -/
def packet_b : li_packet := { li_event := .keyboard_key 30 true, sched_time := 5 }

/-- The two outputs of the void-avoidance scenario: 800x600 at (0,0) and
800x600 at (0,700), with a 100-pixel void between y = 600 and y = 700. -/
def scenario_slots : List Slot :=
  [{ geom := some { x := 0, y := 0, width := 800, height := 600, init_done := true },
     layer := true },
   { geom := some { x := 0, y := 700, width := 800, height := 600, init_done := true },
     layer := true }]

/-- Scenario state: cursor at (400, 500), global space 800 x 1300 (the
extent computed before the void appeared). -/
def scenario_state : KloakState :=
  { cursor := { cursor_x := rof 400, cursor_y := rof 500,
                prev_cursor_x := rof 400, prev_cursor_y := rof 500 },
    slots := scenario_slots, global_space_width := 800, global_space_height := 1300,
    prev_release_time := 0, queue := [] }

/-- Three outputs forming an inward corner at (2,2): a 2x2 screen at the
origin, a 1x3 screen below it, and a 2x2 screen at (2,3).  The pixels
(2,2), (1,2) and (2,1) lie on no output.  recalc_global_space accepts this
layout (each pair passes its coordinate-line touching test). -/
def corner_slots : List Slot :=
  [{ geom := some { x := 0, y := 0, width := 2, height := 2, init_done := true },
     layer := true },
   { geom := some { x := 0, y := 2, width := 1, height := 3, init_done := true },
     layer := true },
   { geom := some { x := 2, y := 3, width := 2, height := 2, init_done := true },
     layer := true }]

/-- Corner state: cursor at (1,1) on the first output, global space 4 x 5. -/
def corner_state : KloakState :=
  { cursor := { cursor_x := rof 1, cursor_y := rof 1,
                prev_cursor_x := rof 1, prev_cursor_y := rof 1 },
    slots := corner_slots, global_space_width := 4, global_space_height := 5,
    prev_release_time := 0, queue := [] }

/-- Two 1x1 outputs at (0,0) and (5,1): clearly gapped (no shared edge),
yet the bottom line of the first (y = 1) equals the top line of the second,
so the touching test of the code accepts the pair. -/
def gap_slots : List Slot :=
  [{ geom := some { x := 0, y := 0, width := 1, height := 1, init_done := true },
     layer := true },
   { geom := some { x := 5, y := 1, width := 1, height := 1, init_done := true },
     layer := true }]

/-- Two 1x1 outputs at (0,0) and (5,5): gapped, and also rejected by the
touching test of the code (no coordinate lines coincide). -/
def far_slots : List Slot :=
  [{ geom := some { x := 0, y := 0, width := 1, height := 1, init_done := true },
     layer := true },
   { geom := some { x := 5, y := 5, width := 1, height := 1, init_done := true },
     layer := true }]

/-- An empty keymap-propagation state (no keymap accepted yet), with the
compiled-keymap type instantiated to the keymap text itself. -/
def kb_state0 : kb_state (List Char) :=
  { old_kb_map := none, xkb_keymap := none, virt_kb_keymap_set := false }

end Kloak

namespace Kloak

/-! ## Claim theorems -/

/-- Claim C3 (code_bug evaluation): random_between does not perform the
top-residual rejection the specification requires and can return a value
outside [lower, upper].  The rejection threshold in the source is
INT64_MAX - INT64_MAX - maxval = -maxval, so only negative draws are
accepted: with lower = 0, upper = 1 the accepted raw draw -3 yields -1,
which is below the lower bound. -/
theorem C3_random_between_escapes_interval :
    random_between 0 1 [-3] = some (-1) ∧ ¬ (0 ≤ (-1 : Int) ∧ (-1 : Int) ≤ 1) := by
  decide

/-- Claim C1 (code_bug evaluation): an admitted non-motion packet can be
scheduled before its admission time.  With prev_release_time = 0,
now = 1000, max_delay = 100 and raw draw -102, the packet is scheduled at
999 < now, violating now ≤ sched_time. -/
theorem C1_bounded_delay_violated :
    schedule_libinput_event 100 state0 (.pointer_button 272 true) 1000 0 [-102]
      = some { state0 with
                 queue := [{ li_event := .pointer_button 272 true, sched_time := 999 }],
                 prev_release_time := 999 } ∧
    (999 : Int) < 1000 := by
  decide

/-- Claim C2 (code_bug evaluation): release times can decrease across two
consecutive admissions.  Both packets are admitted at now = 1000 with
max_delay = 100; the first draw -202 gives release time 1000, the second
draw -102 gives release time 999 < 1000. -/
theorem C2_monotone_release_violated :
    ∃ s1 s2,
      schedule_libinput_event 100 state0 (.keyboard_key 30 true) 1000 0 [-202]
        = some s1 ∧
      schedule_libinput_event 100 s1 (.keyboard_key 30 false) 1000 0 [-102]
        = some s2 ∧
      s2.queue.map li_packet.sched_time = [1000, 999] ∧ (999 : Int) < 1000 := by
  refine ⟨{ state0 with
              queue := [{ li_event := .keyboard_key 30 true, sched_time := 1000 }],
              prev_release_time := 1000 },
          { state0 with
              queue := [{ li_event := .keyboard_key 30 true, sched_time := 1000 },
                        { li_event := .keyboard_key 30 false, sched_time := 999 }],
              prev_release_time := 999 }, ?_, ?_, ?_, ?_⟩ <;> decide

/-- Claim C4: pointer-motion events (relative or absolute) are applied to
the cursor immediately through update_virtual_cursor and never enqueued;
every other event kind is appended to the queue with a scheduled release
time, leaving the cursor untouched. -/
theorem C4_motion_events_not_enqueued (max_delay : Int) (s : KloakState)
    (ev : LiEvent) (now : Int) (fuel : Nat) (draws : List Int) :
    (is_motion_event ev = true →
      ∀ s2, schedule_libinput_event max_delay s ev now fuel draws = some s2 →
        s2.queue = s.queue ∧ s2.prev_release_time = s.prev_release_time ∧
        s2.slots = s.slots ∧
        update_virtual_cursor s.slots fuel (motion_cursor_target s ev) = some s2.cursor) ∧
    (is_motion_event ev = false →
      ∀ s2, schedule_libinput_event max_delay s ev now fuel draws = some s2 →
        ∃ t, s2.queue = s.queue ++ [{ li_event := ev, sched_time := t }] ∧
          s2.cursor = s.cursor ∧ s2.prev_release_time = t) := by
  constructor
  · intro hm s2 h
    rw [schedule_libinput_event, if_pos hm] at h
    rcases Option.map_eq_some'.mp h with ⟨cs2, hcs, hs2⟩
    subst hs2
    exact ⟨rfl, rfl, rfl, by rw [hcs]⟩
  · intro hm s2 h
    rw [schedule_libinput_event, if_neg (by simp [hm])] at h
    rcases Option.map_eq_some'.mp h with ⟨d, hd, hs2⟩
    subst hs2
    exact ⟨now + d, rfl, rfl, rfl⟩

/-- Witness for C4 at concrete inputs: a zero relative motion on state0
leaves the state unchanged (queue untouched, cursor from the walker), and a
button press at now = 0 with draw -102 is appended to the queue. -/
theorem C4_motion_events_not_enqueued_witness :
    (state0.queue = state0.queue ∧
     state0.prev_release_time = state0.prev_release_time ∧
     state0.slots = state0.slots ∧
     update_virtual_cursor state0.slots 1
       (motion_cursor_target state0 (.pointer_motion (rof 0) (rof 0)))
       = some state0.cursor) ∧
    (∃ t, ({ state0 with
               queue := [{ li_event := .pointer_button 272 true, sched_time := -1 }],
               prev_release_time := -1 } : KloakState).queue
            = state0.queue ++ [{ li_event := .pointer_button 272 true, sched_time := t }] ∧
          ({ state0 with
               queue := [{ li_event := .pointer_button 272 true, sched_time := -1 }],
               prev_release_time := -1 } : KloakState).cursor = state0.cursor ∧
          ({ state0 with
               queue := [{ li_event := .pointer_button 272 true, sched_time := -1 }],
               prev_release_time := -1 } : KloakState).prev_release_time = t) :=
  ⟨(C4_motion_events_not_enqueued 100 state0 (.pointer_motion (rof 0) (rof 0)) 0 1 []).1
      rfl state0 (by decide),
   (C4_motion_events_not_enqueued 100 state0 (.pointer_button 272 true) 0 1 [-102]).2
      rfl { state0 with
              queue := [{ li_event := .pointer_button 272 true, sched_time := -1 }],
              prev_release_time := -1 } (by decide)⟩

/-- Claim C5, counterexample: over an arbitrary queue state the drain is not
"exactly the due packets".  With the queue [sched 10, sched 5] and now = 7
the loop stops at the head and removes nothing, although the second packet
is due. -/
theorem C5_prefix_only_drain_counterexample :
    release_scheduled_libinput_events 7 [packet_a, packet_b]
      = ([], [packet_a, packet_b]) ∧
    packet_b.sched_time ≤ 7 ∧
    [packet_a, packet_b].filter (fun p => decide (p.sched_time ≤ 7)) = [packet_b] := by
  decide

/-- Claim C5, amended: on every queue whose release times are nondecreasing
in queue order (the invariant the scheduler is meant to maintain),
release_scheduled_libinput_events hands to handle_libinput_event exactly the
packets whose release time is at most now, in queue order, and leaves
exactly the later-scheduled packets, in order. -/
theorem C5_drain_exact_on_sorted_queue (now : Int) (q : List li_packet)
    (hsorted : q.Pairwise (fun a b => a.sched_time ≤ b.sched_time)) :
    (release_scheduled_libinput_events now q).1
        = q.filter (fun p => decide (p.sched_time ≤ now)) ∧
    (release_scheduled_libinput_events now q).2
        = q.filter (fun p => decide (¬ p.sched_time ≤ now)) := by
  induction q with
  | nil => simp [release_scheduled_libinput_events]
  | cons p rest ih =>
    rcases List.pairwise_cons.mp hsorted with ⟨hp, hrest⟩
    by_cases hdue : p.sched_time ≤ now
    · have hih := ih hrest
      simp [release_scheduled_libinput_events, ge_iff_le, hdue, hih.1, hih.2]
    · have hall : ∀ x ∈ rest, ¬ x.sched_time ≤ now :=
        fun x hx hc => hdue (le_trans (hp x hx) hc)
      constructor
      · simp [release_scheduled_libinput_events, ge_iff_le, hdue]
        intro a ha
        exact not_le.mp (hall a ha)
      · simp [release_scheduled_libinput_events, ge_iff_le, hdue]
        symm
        rw [List.filter_eq_self]
        intro a ha
        rcases List.mem_cons.mp ha with h1 | h2
        · subst h1; simpa using not_le.mp hdue
        · simpa using not_le.mp (hall a h2)

/-- Witness for the amended C5 on the sorted queue [sched 5, sched 10] at
now = 7: the due packet is drained, the later one remains. -/
theorem C5_drain_exact_on_sorted_queue_witness :
    (release_scheduled_libinput_events 7 [packet_b, packet_a]).1
        = [packet_b, packet_a].filter (fun p => decide (p.sched_time ≤ 7)) ∧
    (release_scheduled_libinput_events 7 [packet_b, packet_a]).2
        = [packet_b, packet_a].filter (fun p => decide (¬ p.sched_time ≤ 7)) :=
  C5_drain_exact_on_sorted_queue 7 [packet_b, packet_a] (by decide)

/-- Claim C6, counterexample to the general containment: on the corner
layout, a relative motion of (+1,+1) from (1,1) walks diagonally to (2,2),
the recovery steps (1,2) and (2,1) are both off-screen, and the loop ends
with the cursor at (2,2), which no initialized output contains, although
the layout is accepted by recalc_global_space and outputs exist. -/
theorem C6_corner_escape_counterexample :
    recalc_global_space corner_slots false 0 0 = some (4, 5) ∧
    schedule_libinput_event 100 corner_state (.pointer_motion (rof 1) (rof 1)) 0 50 []
      = some { corner_state with
                 cursor := { cursor_x := rof 2, cursor_y := rof 2,
                             prev_cursor_x := rof 1, prev_cursor_y := rof 1 } } ∧
    (abs_coord_to_screen_local_coord corner_slots 2 2).valid = false ∧
    corner_slots.length ≠ 0 := by
  decide

/-- Claim C6, amended (the concrete void-avoidance scenario of the spec
holds): with outputs at (0,0, 800x600) and (0,700, 800x600) and the cursor
at (400, 500), a relative motion of (+0, +500) leaves the cursor at
(400, 599), on the first output, and the first void pixel (400, 600) is on
no output. -/
theorem C6_void_avoidance_scenario :
    schedule_libinput_event 100 scenario_state (.pointer_motion (rof 0) (rof 500)) 0 200 []
      = some { scenario_state with
                 cursor := { cursor_x := rof 400, cursor_y := rof 599,
                             prev_cursor_x := rof 400, prev_cursor_y := rof 500 } } ∧
    (abs_coord_to_screen_local_coord scenario_slots 400 599).valid = true ∧
    (abs_coord_to_screen_local_coord scenario_slots 400 599).output_idx = 0 ∧
    (abs_coord_to_screen_local_coord scenario_slots 400 600).valid = false := by
  decide

/-- Claim C7 (code_bug evaluation): the gap check is not "exactly when the
union is not edge-connected".  The gap_slots layout has two screens with no
shared edge (spec_edge_connected is false), yet on the initialization path
(allow_gaps = false) recalc_global_space accepts it and updates the extent
instead of exiting, because the bottom line of one screen happens to equal
the top line of the other.  On layouts the code does classify as gapped
(far_slots), the initialization path exits (none) and the hot-unplug path
returns with the previous extent unchanged. -/
theorem C7_gap_detection_unsound :
    recalc_global_space gap_slots false 0 0 = some (6, 2) ∧
    spec_edge_connected (init_screens gap_slots) = false ∧
    recalc_global_space far_slots false 0 0 = none ∧
    recalc_global_space far_slots true 42 43 = some (42, 43) := by
  decide

/-- Claim C8: a keymap descriptor equal to the retained bytes is dropped
without forwarding and without touching the state; a differing (or first)
descriptor is forwarded, recompiled, and its bytes retained — so the same
bytes arriving twice are forwarded exactly once. -/
theorem C8_keymap_idempotent {α : Type} (compile : List Char → Option α)
    (s : kb_state α) (m : List Char) (k : α) (hc : compile m = some k) :
    (∀ s1, (kb_handle_keymap compile s m).1 = some s1 →
        kb_handle_keymap compile s1 m = (some s1, false) ∧ s1.old_kb_map = some m) ∧
    (s.old_kb_map = some m → kb_handle_keymap compile s m = (some s, false)) ∧
    (s.old_kb_map ≠ some m →
        kb_handle_keymap compile s m
          = (some { old_kb_map := some m, xkb_keymap := some k,
                    virt_kb_keymap_set := true }, true)) := by
  refine ⟨?_, ?_, ?_⟩
  · intro s1 h1
    rcases hs : s.old_kb_map with _ | old
    · simp [kb_handle_keymap, hs, kb_forward_and_compile, hc] at h1
      subst h1
      exact ⟨by simp [kb_handle_keymap], rfl⟩
    · by_cases he : old = m
      · subst he
        simp [kb_handle_keymap, hs] at h1
        subst h1
        exact ⟨by simp [kb_handle_keymap, hs], hs⟩
      · simp [kb_handle_keymap, hs, he, kb_forward_and_compile, hc] at h1
        subst h1
        exact ⟨by simp [kb_handle_keymap], rfl⟩
  · intro hs
    simp [kb_handle_keymap, hs]
  · intro hs
    rcases hold : s.old_kb_map with _ | old
    · simp [kb_handle_keymap, hold, kb_forward_and_compile, hc]
    · have hne : old ≠ m := fun he => hs (by rw [hold, he])
      simp [kb_handle_keymap, hold, hne, kb_forward_and_compile, hc]

/-- Witness for C8: starting from the empty keymap state with an identity
compile function, the first empty keymap is forwarded and the second,
identical one is dropped with the state unchanged. -/
theorem C8_keymap_idempotent_witness :
    kb_handle_keymap (fun b : List Char => some b)
        { old_kb_map := some [], xkb_keymap := some [], virt_kb_keymap_set := true } []
      = (some { old_kb_map := some [], xkb_keymap := some [],
                virt_kb_keymap_set := true }, false) :=
  ((C8_keymap_idempotent (fun b : List Char => some b) kb_state0 [] [] rfl).1
      { old_kb_map := some [], xkb_keymap := some [], virt_kb_keymap_set := true }
      (by decide)).1

/-- Claim C9: for each axis present on a released scroll packet, a value of
exactly zero emits an axis-stop on that axis (and no axis event on that
axis), a nonzero value emits an axis event carrying the value (and no
axis-stop on that axis), and in both cases an axis-source matching the
physical source is emitted. -/
theorem C9_scroll_zero_emits_stop (ts : Int) (src : scroll_source)
    (vert horiz : Option Rat) (v : Rat) (keymap_set : Bool) :
    (vert = some v → v = rof 0 →
      wl_emission.axis_stop ts wl_axis.vertical
          ∈ handle_libinput_event (.pointer_scroll src vert horiz) ts keymap_set ∧
      (∀ w, wl_emission.axis ts wl_axis.vertical w
          ∉ handle_libinput_event (.pointer_scroll src vert horiz) ts keymap_set) ∧
      wl_emission.axis_source src
          ∈ handle_libinput_event (.pointer_scroll src vert horiz) ts keymap_set) ∧
    (vert = some v → v ≠ rof 0 →
      wl_emission.axis ts wl_axis.vertical v
          ∈ handle_libinput_event (.pointer_scroll src vert horiz) ts keymap_set ∧
      wl_emission.axis_stop ts wl_axis.vertical
          ∉ handle_libinput_event (.pointer_scroll src vert horiz) ts keymap_set ∧
      wl_emission.axis_source src
          ∈ handle_libinput_event (.pointer_scroll src vert horiz) ts keymap_set) ∧
    (horiz = some v → v = rof 0 →
      wl_emission.axis_stop ts wl_axis.horizontal
          ∈ handle_libinput_event (.pointer_scroll src vert horiz) ts keymap_set ∧
      (∀ w, wl_emission.axis ts wl_axis.horizontal w
          ∉ handle_libinput_event (.pointer_scroll src vert horiz) ts keymap_set) ∧
      wl_emission.axis_source src
          ∈ handle_libinput_event (.pointer_scroll src vert horiz) ts keymap_set) ∧
    (horiz = some v → v ≠ rof 0 →
      wl_emission.axis ts wl_axis.horizontal v
          ∈ handle_libinput_event (.pointer_scroll src vert horiz) ts keymap_set ∧
      wl_emission.axis_stop ts wl_axis.horizontal
          ∉ handle_libinput_event (.pointer_scroll src vert horiz) ts keymap_set ∧
      wl_emission.axis_source src
          ∈ handle_libinput_event (.pointer_scroll src vert horiz) ts keymap_set) := by
  refine ⟨?_, ?_, ?_, ?_⟩
  · rintro rfl rfl
    refine ⟨by simp [handle_libinput_event, scroll_axis_emissions], ?_, ?_⟩
    · intro w
      rcases horiz with _ | hv
      · simp [handle_libinput_event, scroll_axis_emissions]
      · by_cases h0 : hv = rof 0 <;>
          simp [handle_libinput_event, scroll_axis_emissions, h0]
    · simp [handle_libinput_event, scroll_axis_emissions]
  · rintro rfl hv
    refine ⟨by simp [handle_libinput_event, scroll_axis_emissions, hv], ?_, ?_⟩
    · rcases horiz with _ | hw
      · simp [handle_libinput_event, scroll_axis_emissions, hv]
      · by_cases h0 : hw = rof 0 <;>
          simp [handle_libinput_event, scroll_axis_emissions, hv, h0]
    · simp [handle_libinput_event, scroll_axis_emissions, hv]
  · rintro rfl rfl
    refine ⟨?_, ?_, ?_⟩
    · rcases vert with _ | hv
      · simp [handle_libinput_event, scroll_axis_emissions]
      · by_cases h0 : hv = rof 0 <;>
          simp [handle_libinput_event, scroll_axis_emissions, h0]
    · intro w
      rcases vert with _ | hv
      · simp [handle_libinput_event, scroll_axis_emissions]
      · by_cases h0 : hv = rof 0 <;>
          simp [handle_libinput_event, scroll_axis_emissions, h0]
    · rcases vert with _ | hv
      · simp [handle_libinput_event, scroll_axis_emissions]
      · by_cases h0 : hv = rof 0 <;>
          simp [handle_libinput_event, scroll_axis_emissions, h0]
  · rintro rfl hv
    refine ⟨?_, ?_, ?_⟩
    · rcases vert with _ | hw
      · simp [handle_libinput_event, scroll_axis_emissions, hv]
      · by_cases h0 : hw = rof 0 <;>
          simp [handle_libinput_event, scroll_axis_emissions, hv, h0]
    · rcases vert with _ | hw
      · simp [handle_libinput_event, scroll_axis_emissions, hv]
      · by_cases h0 : hw = rof 0 <;>
          simp [handle_libinput_event, scroll_axis_emissions, hv, h0]
    · rcases vert with _ | hw
      · simp [handle_libinput_event, scroll_axis_emissions, hv]
      · by_cases h0 : hw = rof 0 <;>
          simp [handle_libinput_event, scroll_axis_emissions, hv, h0]

/-- Witness for C9: a vertical wheel scroll of exactly 0 at t = 5 emits
axis-stop and the wheel axis-source, and a horizontal finger scroll of 3
emits the axis event. -/
theorem C9_scroll_zero_emits_stop_witness :
    (wl_emission.axis_stop 5 wl_axis.vertical
        ∈ handle_libinput_event (.pointer_scroll .wheel (some (rof 0)) none) 5 true ∧
     wl_emission.axis_source .wheel
        ∈ handle_libinput_event (.pointer_scroll .wheel (some (rof 0)) none) 5 true) ∧
    wl_emission.axis 5 wl_axis.horizontal (rof 3)
        ∈ handle_libinput_event (.pointer_scroll .finger none (some (rof 3))) 5 true :=
  ⟨⟨((C9_scroll_zero_emits_stop 5 .wheel (some (rof 0)) none (rof 0) true).1
        rfl rfl).1,
    ((C9_scroll_zero_emits_stop 5 .wheel (some (rof 0)) none (rof 0) true).1
        rfl rfl).2.2⟩,
   ((C9_scroll_zero_emits_stop 5 .finger none (some (rof 3)) (rof 3) true).2.2.2
        rfl (by decide)).1⟩

/-- Claim C10: for every capability mask the test
(capabilities | WL_SEAT_CAPABILITY_KEYBOARD) is nonzero, so the fatal
no-keyboard branch is unreachable and the keyboard listener is registered
unconditionally. -/
theorem C10_keyboard_listener_unconditional (capabilities : Nat) :
    seat_handle_capabilities capabilities = true := by
  have hbit : ((capabilities ||| WL_SEAT_CAPABILITY_KEYBOARD).testBit 1) = true := by
    simp [Nat.testBit_or, WL_SEAT_CAPABILITY_KEYBOARD]
    exact Or.inr (by decide)
  have hne : capabilities ||| WL_SEAT_CAPABILITY_KEYBOARD ≠ 0 := by
    intro h
    rw [h] at hbit
    simp [Nat.zero_testBit] at hbit
  simp [seat_handle_capabilities, hne]

end Kloak
